import Mathlib

/-!
Verification of the duplicate-message detector in `src/main.rs` (the "broom"
Discord bot).  The detector logic of `Handler::message` is embedded directly
from the source; the idle-window cache (the `moka` cache configured with
`time_to_idle`, whose implementation is not part of this repository) is
modelled from the contract in §4.1 of the specification.  Time is modelled in whole
seconds as `Nat`, matching the `duration.as_secs()` comparison in the source and
the second-granularity constants.
-/

namespace Broom

/-- Time in seconds until a message is automatically evicted from the tracking
cache (source: `const TIME_TO_IDLE_IN_SECS: u64 = 120`). -/
def TIME_TO_IDLE_IN_SECS : Nat := 120

/-- Minimum length of messages to be tracked; anything shorter is ignored
entirely (source: `const MIN_MESSAGE_LENGTH: usize = 50`).  In Rust, `String::len` is the UTF-8 byte length, so the embedding compares
`String.utf8ByteSize`. -/
def MIN_MESSAGE_LENGTH : Nat := 50

/-- The cache key from the source: `(msg.author.id, msg.content)`.  The
`UserId` is modelled as `Nat`. -/
abbrev CacheKey := Nat × String

/-- Modelled from the spec: the state of the Idle-Window Cache (the `moka`
cache built with `time_to_idle`, whose implementation is outside this
repository).  An association list from keys to the timestamp of the most
recent `put`; logical expiry is enforced by `get`. -/
abbrev Cache := List (CacheKey × Nat)

/-- The raw mapping: the timestamp of the most recent `put` for a key, if the
key is physically present. -/
def rawGet : Cache → CacheKey → Option Nat
  | [], _ => none
  | (k2, t) :: rest, k => if k2 = k then some t else rawGet rest k

/-- Modelled from the spec: `put(key, timestamp)` inserts or overwrites the
entry for `key`, refreshing its idle-expiry deadline to
`timestamp + idle_duration`. -/
def put : Cache → CacheKey → Nat → Cache
  | [], k, t => [(k, t)]
  | (k2, t2) :: rest, k, t =>
    if k2 = k then (k, t) :: rest else (k2, t2) :: put rest k t

/-- Modelled from the spec: `get(key) -> Optional<Timestamp>` returns the last
recorded timestamp for `key` if present and not idle-expired (an entry expires
`idle_duration` after its most recent `put`); otherwise absent. -/
def get (c : Cache) (k : CacheKey) (now : Nat) : Option Nat :=
  match rawGet c k with
  | none => none
  | some t => if now - t ≤ TIME_TO_IDLE_IN_SECS then some t else none

/-- Modelled from the spec: the read operation as a state transformer, making
explicit that a `get` is a pure read and returns the cache state unchanged
(spec §4.1: a read "must not have the side effect of refreshing idle
eligibility"). -/
def getOp (c : Cache) (k : CacheKey) (now : Nat) : Option Nat × Cache :=
  (get c k now, c)

/-- The standard-library operation `Instant::checked_duration_since`: `some (now - earlier)` when
`earlier ≤ now`, and `none` when the clock went backwards. -/
def checked_duration_since (now earlier : Nat) : Option Nat :=
  if earlier ≤ now then some (now - earlier) else none

/-- The `DuplicateDecision` record of the spec: in the source, `is_duplicate = true`
corresponds to entering the delete-and-notify branch, and
`elapsed_since_prior` is the `duration` computed there. -/
structure DuplicateDecision where
  is_duplicate : Bool
  elapsed_since_prior : Option Nat
deriving DecidableEq, Repr

/-- An inbound message event: channel, author id (`msg.author.id`) and
content (`msg.content`).  The channel takes no part in the detector logic. -/
structure Message where
  channel_id : Nat
  author : Nat
  content : String
deriving DecidableEq, Repr

/-- The duplicate-detection core of `Handler::message` from the source,
with the clock reading `now` passed as a parameter:

* `if msg.content.len() <= MIN_MESSAGE_LENGTH { return; }`
* `let key = (msg.author.id, msg.content.clone());`
* `let timestamp = { cache_lock.read().await.get(&key) };`
* `{ cache_lock.write().await.insert(key, now).await; }`
* `if let Some(timestamp) = timestamp { let duration = now.checked_duration_since(timestamp); if let Some(duration) = duration { if duration.as_secs() <= TIME_TO_IDLE_IN_SECS { ... delete and notify ... } } }`

Returns the decision together with the cache state after the call. -/
def evaluate (cache : Cache) (author : Nat) (content : String) (now : Nat) :
    DuplicateDecision × Cache :=
  if content.utf8ByteSize ≤ MIN_MESSAGE_LENGTH then
    (⟨false, none⟩, cache)
  else
    let key : CacheKey := (author, content)
    let timestamp := get cache key now
    let cache2 := put cache key now
    match timestamp with
    | none => (⟨false, none⟩, cache2)
    | some t =>
      match checked_duration_since now t with
      | none => (⟨false, none⟩, cache2)
      | some d =>
        if d ≤ TIME_TO_IDLE_IN_SECS then (⟨true, some d⟩, cache2)
        else (⟨false, none⟩, cache2)

/-- The handler `Handler.message` consumes a `Message` event; only the author id and the
content reach the detector (the channel is used solely for wording the
notification text). -/
def Handler.message (cache : Cache) (msg : Message) (now : Nat) :
    DuplicateDecision × Cache :=
  evaluate cache msg.author msg.content now

/-! ## Interleaving model of concurrent handler invocations

In the source the read and the write of the compound check-and-update are
guarded by two *separate* lock acquisitions: the read guard taken for
`cache_lock.read().await.get(&key)` is dropped at the end of its block before
`cache_lock.write().await.insert(key, now).await` acquires the write guard,
and tokio read guards are shared, so any interleaving in which the read of each task precedes its own write is realizable.  Each lock-guarded block is one
atomic step. -/

/-- The state of one in-flight `Handler.message` invocation: its inputs, a
program counter (0 = before the guarded `get`, 1 = between the two guarded
blocks, 2 = done) and the task-local result of its `get`. -/
structure TaskState where
  author : Nat
  content : String
  now : Nat
  pc : Nat
  observed : Option (Option Nat)
deriving DecidableEq, Repr

/-- A fresh invocation for the given inputs. -/
def initTask (author : Nat) (content : String) (now : Nat) : TaskState :=
  ⟨author, content, now, 0, none⟩

/-- Run one atomic step of an invocation against the shared cache: a short
message returns without touching the cache; otherwise step 0 performs the
read-guarded `get` (recording the result task-locally) and step 1 performs
the write-guarded `insert`. -/
def stepTask (c : Cache) (ts : TaskState) : Cache × TaskState :=
  if ts.content.utf8ByteSize ≤ MIN_MESSAGE_LENGTH then
    (c, { ts with pc := 2 })
  else
    match ts.pc with
    | 0 =>
      let seen := get c (ts.author, ts.content) ts.now
      (c, { ts with pc := 1, observed := some seen })
    | 1 => (put c (ts.author, ts.content) ts.now, { ts with pc := 2 })
    | _ => (c, ts)

/-- Run two concurrent invocations under a schedule: `false` steps the first
task, `true` steps the second. -/
def runSchedule : List Bool → Cache → TaskState → TaskState →
    Cache × TaskState × TaskState
  | [], c, a, b => (c, a, b)
  | false :: rest, c, a, b =>
    let s := stepTask c a
    runSchedule rest s.1 s.2 b
  | true :: rest, c, a, b =>
    let s := stepTask c b
    runSchedule rest s.1 a s.2

/-- The decision an invocation reaches, computed from its task-local `get`
result exactly as the tail of `Handler::message` does. -/
def taskDecision (ts : TaskState) : DuplicateDecision :=
  match ts.observed with
  | some (some t) =>
    match checked_duration_since ts.now t with
    | none => ⟨false, none⟩
    | some d =>
      if d ≤ TIME_TO_IDLE_IN_SECS then ⟨true, some d⟩ else ⟨false, none⟩
  | _ => ⟨false, none⟩

/-! ## Concrete example texts -/

/-- A 60-character, 60-byte ASCII text (tracked: 60 > 50). -/
def sixtyCharText : String :=
  "abcdefghijklmnopqrstuvwxyzabcdefghijklmnopqrstuvwxyzabcdefgh"

/-- A 50-character, 50-byte ASCII text (not tracked: 50 ≤ 50). -/
def fiftyByteText : String :=
  "abcdefghijklmnopqrstuvwxyzabcdefghijklmnopqrstuvwx"

/-- Twenty copies of the three-byte character U+20AC: 20 characters but 60
UTF-8 bytes, hence tracked although far fewer than 50 characters. -/
def multiByteText : String :=
  "€€€€€€€€€€€€€€€€€€€€"

/-! ## Helper lemmas about the cache -/

theorem rawGet_put_self (c : Cache) (k : CacheKey) (t : Nat) :
    rawGet (put c k t) k = some t := by
  induction c with
  | nil => simp [put, rawGet]
  | cons e rest ih =>
    obtain ⟨k2, t2⟩ := e
    by_cases h : k2 = k
    · simp [put, h, rawGet]
    · simp [put, h, rawGet, ih]

theorem rawGet_put_ne (c : Cache) (k k2 : CacheKey) (t : Nat) (h : k2 ≠ k) :
    rawGet (put c k2 t) k = rawGet c k := by
  induction c with
  | nil => simp [put, rawGet, h]
  | cons e rest ih =>
    obtain ⟨k3, t3⟩ := e
    have h5 : k ≠ k2 := Ne.symm h
    by_cases h3 : k3 = k2
    · simp [put, h3, rawGet, h]
    · by_cases h4 : k3 = k <;> simp [put, h3, rawGet, h4, h5, ih]

theorem evaluate_snd (c : Cache) (a : Nat) (text : String) (now : Nat)
    (h : MIN_MESSAGE_LENGTH < text.utf8ByteSize) :
    (evaluate c a text now).2 = put c (a, text) now := by
  unfold evaluate
  rw [if_neg (by omega)]
  rcases hg : get c (a, text) now with _ | t
  · simp [hg]
  · rcases hd : checked_duration_since now t with _ | d
    · simp [hg, hd]
    · simp only [hg, hd]
      split <;> rfl

theorem get_stale (c : Cache) (k : CacheKey) (t now : Nat)
    (hp : rawGet c k = some t) (hgap : TIME_TO_IDLE_IN_SECS < now - t) :
    get c k now = none := by
  simp [get, hp]
  omega

theorem rawGet_foldl_ne (ops : List (CacheKey × Nat)) (c : Cache)
    (k : CacheKey) (hops : ∀ p ∈ ops, p.1 ≠ k) (hc : rawGet c k = none) :
    rawGet (ops.foldl (fun acc p => put acc p.1 p.2) c) k = none := by
  induction ops generalizing c with
  | nil => simpa using hc
  | cons p rest ih =>
    simp only [List.foldl_cons]
    refine ih _ (fun q hq => hops q (List.mem_cons_of_mem p hq)) ?_
    rw [rawGet_put_ne c k p.1 p.2 (hops p (List.mem_cons_self p rest))]
    exact hc

/-! ## The claims -/

/-- C1: the claim asserts that the read of the prior timestamp and the
subsequent `put(key, now)` execute as one atomic unit per key, so that no two
concurrent evaluations of the same key can both observe the pre-update
(absent) state.  The source drops the read guard before acquiring the write
guard, so the interleaving read-A, read-B, write-A, write-B of two
evaluations of the same tracked key at the same time is realizable; under it
both invocations observe the absent state and both decide non-duplicate,
while the serialized schedule read-A, write-A, read-B, write-B flags the
second invocation as a duplicate.  This theorem evaluates the embedded code
at that failing interleaving. -/
theorem spec_c1_race :
    ((runSchedule [false, true, false, true] []
        (initTask 1 sixtyCharText 0) (initTask 1 sixtyCharText 0)).2.1.observed
        = some none ∧
     (runSchedule [false, true, false, true] []
        (initTask 1 sixtyCharText 0) (initTask 1 sixtyCharText 0)).2.2.observed
        = some none ∧
     taskDecision (runSchedule [false, true, false, true] []
        (initTask 1 sixtyCharText 0) (initTask 1 sixtyCharText 0)).2.1
        = ⟨false, none⟩ ∧
     taskDecision (runSchedule [false, true, false, true] []
        (initTask 1 sixtyCharText 0) (initTask 1 sixtyCharText 0)).2.2
        = ⟨false, none⟩) ∧
    (taskDecision (runSchedule [false, false, true, true] []
        (initTask 1 sixtyCharText 0) (initTask 1 sixtyCharText 0)).2.1
        = ⟨false, none⟩ ∧
     taskDecision (runSchedule [false, false, true, true] []
        (initTask 1 sixtyCharText 0) (initTask 1 sixtyCharText 0)).2.2
        = ⟨true, some 0⟩) := by
  decide

/-- C2: for every originator, every text longer than `min_tracked_length`
bytes, and every pair of times `t1 ≤ t2` with `t2 - t1 ≤ idle_duration`,
evaluating a key that is absent from the cache at `t1` and then again at `t2`
(with no intervening events) yields non-duplicate at `t1` and duplicate at
`t2` with `elapsed_since_prior = t2 - t1`. -/
theorem spec_c2 (c : Cache) (author : Nat) (text : String) (t1 t2 : Nat)
    (habs : rawGet c (author, text) = none)
    (hlen : MIN_MESSAGE_LENGTH < text.utf8ByteSize)
    (h12 : t1 ≤ t2) (hwin : t2 - t1 ≤ TIME_TO_IDLE_IN_SECS) :
    (evaluate c author text t1).1 = ⟨false, none⟩ ∧
    (evaluate (evaluate c author text t1).2 author text t2).1 =
      ⟨true, some (t2 - t1)⟩ := by
  have hnot : ¬ text.utf8ByteSize ≤ MIN_MESSAGE_LENGTH := by omega
  have h1 : evaluate c author text t1 =
      (⟨false, none⟩, put c (author, text) t1) := by
    simp [evaluate, hnot, get, habs]
  refine ⟨by rw [h1], ?_⟩
  rw [h1]
  simp [evaluate, hnot, get, rawGet_put_self, checked_duration_since, h12, hwin]

/-- Witness for C2: author 1 posts the sixty-character text at times 5 and
35; the first evaluation is non-duplicate and the second is a duplicate with
elapsed time 30. -/
theorem spec_c2_witness :
    (evaluate [] 1 sixtyCharText 5).1 = ⟨false, none⟩ ∧
    (evaluate (evaluate [] 1 sixtyCharText 5).2 1 sixtyCharText 35).1 =
      ⟨true, some (35 - 5)⟩ :=
  spec_c2 [] 1 sixtyCharText 5 35 (by decide) (by decide) (by decide) (by decide)

/-- C3: for every originator, every tracked-length text and every pair of
times with `t2 - t1 > idle_duration`, evaluating at `t1` and then at `t2`
yields non-duplicate both times; and in general an entry whose last `put` is
more than `idle_duration` in the past is never returned by `get`. -/
theorem spec_c3 (c : Cache) (author : Nat) (text : String) (t1 t2 : Nat)
    (habs : rawGet c (author, text) = none)
    (hlen : MIN_MESSAGE_LENGTH < text.utf8ByteSize)
    (hgap : TIME_TO_IDLE_IN_SECS < t2 - t1) :
    (evaluate c author text t1).1 = ⟨false, none⟩ ∧
    (evaluate (evaluate c author text t1).2 author text t2).1 =
      ⟨false, none⟩ ∧
    ∀ (c2 : Cache) (k : CacheKey) (t now : Nat), rawGet c2 k = some t →
      TIME_TO_IDLE_IN_SECS < now - t → get c2 k now = none := by
  have hnot : ¬ text.utf8ByteSize ≤ MIN_MESSAGE_LENGTH := by omega
  have h1 : evaluate c author text t1 =
      (⟨false, none⟩, put c (author, text) t1) := by
    simp [evaluate, hnot, get, habs]
  refine ⟨by rw [h1], ?_, fun c2 k t now hp hg => get_stale c2 k t now hp hg⟩
  rw [h1]
  have hw : ¬ t2 - t1 ≤ TIME_TO_IDLE_IN_SECS := by omega
  simp [evaluate, hnot, get, rawGet_put_self, hw]

/-- Witness for C3: author 1 posts the sixty-character text at times 0 and
121; both evaluations are non-duplicate since 121 exceeds the 120-second
window. -/
theorem spec_c3_witness :
    (evaluate [] 1 sixtyCharText 0).1 = ⟨false, none⟩ ∧
    (evaluate (evaluate [] 1 sixtyCharText 0).2 1 sixtyCharText 121).1 =
      ⟨false, none⟩ :=
  ⟨(spec_c3 [] 1 sixtyCharText 0 121 (by decide) (by decide) (by decide)).1,
   (spec_c3 [] 1 sixtyCharText 0 121 (by decide) (by decide) (by decide)).2.1⟩

/-- C4: for every text of at most `min_tracked_length` bytes, the handler
returns non-duplicate with no elapsed time and leaves the cache completely
unchanged (in particular its size is unchanged), for every originator,
channel and time. -/
theorem spec_c4 (cache : Cache) (msg : Message) (now : Nat)
    (hshort : msg.content.utf8ByteSize ≤ MIN_MESSAGE_LENGTH) :
    Handler.message cache msg now = (⟨false, none⟩, cache) ∧
    (Handler.message cache msg now).2.length = cache.length := by
  have h : Handler.message cache msg now = (⟨false, none⟩, cache) := by
    simp [Handler.message, evaluate, hshort]
  exact ⟨h, by rw [h]⟩

/-- Witness for C4: a two-character message leaves a one-entry cache exactly
as it was and is reported non-duplicate. -/
theorem spec_c4_witness :
    Handler.message [((2, sixtyCharText), 3)] ⟨1, 1, "hi"⟩ 7 =
      (⟨false, none⟩, [((2, sixtyCharText), 3)]) :=
  (spec_c4 [((2, sixtyCharText), 3)] ⟨1, 1, "hi"⟩ 7 (by decide)).1

/-- C5: every evaluation of a tracked-length text unconditionally ends in
`put(key, now)` whatever the decision was; and after `put(key, t1)` then
`put(key, t2)` with `t1 ≤ t2`, the cache holds `t2` for that key, and a
fresh-enough `get` returns `t2`, not `t1`. -/
theorem spec_c5 (cache : Cache) (author : Nat) (text : String)
    (now : Nat) (k : CacheKey) (t1 t2 now2 : Nat)
    (hlen : MIN_MESSAGE_LENGTH < text.utf8ByteSize) (h12 : t1 ≤ t2) :
    (evaluate cache author text now).2 = put cache (author, text) now ∧
    rawGet (put (put cache k t1) k t2) k = some t2 ∧
    (now2 - t2 ≤ TIME_TO_IDLE_IN_SECS →
      get (put (put cache k t1) k t2) k now2 = some t2) := by
  refine ⟨evaluate_snd cache author text now hlen, rawGet_put_self _ k t2, ?_⟩
  intro hfresh
  simp [get, rawGet_put_self, hfresh]

/-- Witness for C5: evaluating the sixty-character text writes it with the
current time, and a double `put` at times 3 then 8 leaves 8, which `get`
returns at time 100. -/
theorem spec_c5_witness :
    (evaluate [] 1 sixtyCharText 9).2 = put [] (1, sixtyCharText) 9 ∧
    rawGet (put (put [] (2, sixtyCharText) 3) (2, sixtyCharText) 8)
      (2, sixtyCharText) = some 8 ∧
    get (put (put [] (2, sixtyCharText) 3) (2, sixtyCharText) 8)
      (2, sixtyCharText) 100 = some 8 :=
  ⟨(spec_c5 [] 1 sixtyCharText 9 (2, sixtyCharText) 3 8 100 (by decide)
      (by decide)).1,
   (spec_c5 [] 1 sixtyCharText 9 (2, sixtyCharText) 3 8 100 (by decide)
      (by decide)).2.1,
   (spec_c5 [] 1 sixtyCharText 9 (2, sixtyCharText) 3 8 100 (by decide)
      (by decide)).2.2 (by decide)⟩

/-- C6: if the clock is non-monotonic and `now` is earlier than the recorded
prior timestamp, the evaluation decides non-duplicate (the
`checked_duration_since` underflow is absorbed locally, never an error and
never a duplicate). -/
theorem spec_c6 (c : Cache) (author : Nat) (text : String) (now t : Nat)
    (hlen : MIN_MESSAGE_LENGTH < text.utf8ByteSize)
    (hprior : rawGet c (author, text) = some t) (hclock : now < t) :
    (evaluate c author text now).1 = ⟨false, none⟩ := by
  have hnot : ¬ text.utf8ByteSize ≤ MIN_MESSAGE_LENGTH := by omega
  have hwin : now - t ≤ TIME_TO_IDLE_IN_SECS := by omega
  have hcds : checked_duration_since now t = none := by
    simp [checked_duration_since]
    omega
  simp [evaluate, hnot, get, hprior, hwin, hcds]

/-- Witness for C6: the key was recorded at time 10 but the clock reads 4;
the evaluation is non-duplicate. -/
theorem spec_c6_witness :
    (evaluate [((1, sixtyCharText), 10)] 1 sixtyCharText 4).1 =
      ⟨false, none⟩ :=
  spec_c6 [((1, sixtyCharText), 10)] 1 sixtyCharText 4 10 (by decide)
    (by decide) (by decide)

/-- C7: a `get` is a pure read returning the cache unchanged, and the
idle-expiry of an entry is determined solely by its most recent `put`:
after `put` at `t`, a `get` at any time `now` succeeds exactly when
`now - t ≤ idle_duration`, independent of any intervening reads. -/
theorem spec_c7 (c : Cache) (k : CacheKey) (t u now : Nat) :
    (getOp c k u).2 = c ∧
    (getOp (put c k t) k u).2 = put c k t ∧
    get (put c k t) k now =
      if now - t ≤ TIME_TO_IDLE_IN_SECS then some t else none := by
  refine ⟨rfl, rfl, ?_⟩
  simp [get, rawGet_put_self]

/-- C8: duplicate detection is channel-independent (the key is exactly the
pair of author id and text), and the spec scenario holds with the constants
`idle_duration = 120` and `min_length = 50`: a 60-character string posted by
the same author at time 0 in channel 1, time 30 in channel 2 and time 200 in
channel 3 is judged non-duplicate, duplicate with elapsed 30, and
non-duplicate again. -/
theorem spec_c8 :
    TIME_TO_IDLE_IN_SECS = 120 ∧ MIN_MESSAGE_LENGTH = 50 ∧
    sixtyCharText.length = 60 ∧
    (∀ (cache : Cache) (m1 m2 : Message) (now : Nat),
      m1.author = m2.author → m1.content = m2.content →
      Handler.message cache m1 now = Handler.message cache m2 now) ∧
    (Handler.message [] ⟨1, 1, sixtyCharText⟩ 0).1 = ⟨false, none⟩ ∧
    (Handler.message (Handler.message [] ⟨1, 1, sixtyCharText⟩ 0).2
      ⟨2, 1, sixtyCharText⟩ 30).1 = ⟨true, some 30⟩ ∧
    (Handler.message (Handler.message (Handler.message []
      ⟨1, 1, sixtyCharText⟩ 0).2 ⟨2, 1, sixtyCharText⟩ 30).2
      ⟨3, 1, sixtyCharText⟩ 200).1 = ⟨false, none⟩ := by
  refine ⟨rfl, rfl, by decide, ?_, by decide, by decide, by decide⟩
  intro cache m1 m2 now ha hc
  simp [Handler.message, ha, hc]

/-- Witness for C8: the same post in channel 1 and in channel 2 produces
identical results. -/
theorem spec_c8_witness :
    Handler.message [] ⟨1, 1, sixtyCharText⟩ 5 =
      Handler.message [] ⟨2, 1, sixtyCharText⟩ 5 :=
  spec_c8.2.2.2.1 [] ⟨1, 1, sixtyCharText⟩ ⟨2, 1, sixtyCharText⟩ 5 rfl rfl

/-- C9: a key never inserted by any `put` is absent from `get`, and
evaluating a tracked-length text whose key was never recorded yields
non-duplicate with no elapsed time. -/
theorem spec_c9 :
    (∀ (ops : List (CacheKey × Nat)) (k : CacheKey) (now : Nat),
      (∀ p ∈ ops, p.1 ≠ k) →
      get (ops.foldl (fun acc p => put acc p.1 p.2) []) k now = none) ∧
    (∀ (c : Cache) (author : Nat) (text : String) (now : Nat),
      MIN_MESSAGE_LENGTH < text.utf8ByteSize →
      rawGet c (author, text) = none →
      (evaluate c author text now).1 = ⟨false, none⟩) := by
  constructor
  · intro ops k now hops
    have h := rawGet_foldl_ne ops [] k hops (by simp [rawGet])
    simp [get, h]
  · intro c author text now hlen habs
    have hnot : ¬ text.utf8ByteSize ≤ MIN_MESSAGE_LENGTH := by omega
    simp [evaluate, hnot, get, habs]

/-- Witness for C9: a cache built by a `put` of an unrelated key answers
absent for the never-inserted key, and a first evaluation of the
sixty-character text is non-duplicate. -/
theorem spec_c9_witness :
    get ([((2, fiftyByteText), 3)].foldl (fun acc p => put acc p.1 p.2) [])
      (1, sixtyCharText) 50 = none ∧
    (evaluate [] 1 sixtyCharText 0).1 = ⟨false, none⟩ :=
  ⟨spec_c9.1 [((2, fiftyByteText), 3)] (1, sixtyCharText) 50 (by decide),
   spec_c9.2 [] 1 sixtyCharText 0 (by decide) (by decide)⟩

/-- C10: the minimum-length filter measures UTF-8 bytes with an inclusive
boundary: a message is tracked (reaches the cache) exactly when its byte
length strictly exceeds 50, so a 50-byte message is never tracked, while a
20-character message of three-byte characters (60 bytes) is tracked. -/
theorem spec_c10 :
    (∀ (cache : Cache) (msg : Message) (now : Nat),
      msg.content.utf8ByteSize ≤ MIN_MESSAGE_LENGTH →
      Handler.message cache msg now = (⟨false, none⟩, cache)) ∧
    (∀ (cache : Cache) (msg : Message) (now : Nat),
      MIN_MESSAGE_LENGTH < msg.content.utf8ByteSize →
      (Handler.message cache msg now).2 =
        put cache (msg.author, msg.content) now) ∧
    fiftyByteText.utf8ByteSize = 50 ∧ fiftyByteText.length = 50 ∧
    (∀ (cache : Cache) (ch a now : Nat),
      Handler.message cache ⟨ch, a, fiftyByteText⟩ now =
        (⟨false, none⟩, cache)) ∧
    multiByteText.length < 50 ∧ 50 < multiByteText.utf8ByteSize ∧
    (∀ (cache : Cache) (ch a now : Nat),
      (Handler.message cache ⟨ch, a, multiByteText⟩ now).2 =
        put cache (a, multiByteText) now) := by
  refine ⟨?_, ?_, by decide, by decide, ?_, by decide, by decide, ?_⟩
  · intro cache msg now hshort
    simp [Handler.message, evaluate, hshort]
  · intro cache msg now hlong
    exact evaluate_snd cache msg.author msg.content now hlong
  · intro cache ch a now
    have h : fiftyByteText.utf8ByteSize ≤ MIN_MESSAGE_LENGTH := by decide
    simp [Handler.message, evaluate, h]
  · intro cache ch a now
    exact evaluate_snd cache a multiByteText now (by decide)

/-- Witness for C10: the 50-byte message is ignored entirely while the
20-character multi-byte message is written to the cache. -/
theorem spec_c10_witness :
    Handler.message [] ⟨1, 1, fiftyByteText⟩ 3 = (⟨false, none⟩, []) ∧
    (Handler.message [] ⟨1, 1, multiByteText⟩ 3).2 =
      put [] (1, multiByteText) 3 :=
  ⟨spec_c10.1 [] ⟨1, 1, fiftyByteText⟩ 3 (by decide),
   spec_c10.2.1 [] ⟨1, 1, multiByteText⟩ 3 (by decide)⟩

end Broom
